import Mathlib

/-!
# The `logger` package of luckyweiwei/base

A shallow embedding of `logger/logger.go`: the caller resolver `getLineNumer`, the four
dispatch helpers (`logPrintf`, `logErrorPrintf`, `logPrint`, `logErrorPrint`), the leveled
entry points built on them, `SqlDebug`, `WithField`, `WithFields`, `SetLogLevel`,
`readLogConfig` and `LogInit`.

The logging engine (logrus) and the Go runtime are outside the package.  The engine is
embedded as a recorder: each of its emit functions stores the format and argument list it
was handed.  The call stack is a list of frames, innermost first, to which every call adds
one frame.  The message the engine would print is obtained from a recorded call with a model
of `fmt.Sprintf`, `fmt.Sprint` and `fmt.Sprintln`; what the model leaves open (the text of
`debug.Stack()`, the output of directives with flags, width or precision) is a parameter,
`Runtime`.
-/

set_option autoImplicit false

namespace logger

/-! ## Dynamic values and their printing (Go `fmt`) -/

/-- The `interface{}` values of the embedding: strings, integers, booleans, the nil
interface, any other data value of a kind that is not string (a float, an error, a
struct, a slice), given by the name of its type and by its text under `%v` and under
`%+v`, and a function or pointer to a function, given by the name of its type and by its
text, an address. -/
inductive Value where
  | str (s : String)
  | int (n : Int)
  | bool (b : Bool)
  | nil
  | other (typeName : String) (text : String) (plusText : String)
  | func (typeName : String) (text : String)
  deriving DecidableEq, Repr

/-- What `reflect.TypeOf(v).String()` gives for a non-nil value. -/
def Value.typeString : Value → String
  | .str _ => "string"
  | .int _ => "int"
  | .bool _ => "bool"
  | .nil => "<nil>"
  | .other typeName _ _ => typeName
  | .func typeName _ => typeName

/-- Whether the dynamic kind of the value is `reflect.String`. -/
def Value.isString : Value → Bool
  | .str _ => true
  | _ => false

/-- The text of a value under the verb `v`. -/
def Value.text : Value → String
  | .str s => s
  | .int n => toString n
  | .bool true => "true"
  | .bool false => "false"
  | .nil => "<nil>"
  | .other _ text _ => text
  | .func _ text => text

/-- Whether the value is of kind function, or a pointer to a function. -/
def Value.isFunc : Value → Bool
  | .func _ _ => true
  | _ => false

/-- The text of a value under `%+v`. -/
def Value.plusText : Value → String
  | .other _ _ plusText => plusText
  | v => v.text

/-- One formatting directive of a format string: the flag characters in the order written,
the width and the precision if present, and the verb. -/
structure Directive where
  flags : List Char
  width : Option Nat
  prec : Option Nat
  verb : Char
  deriving DecidableEq, Repr

/-- One frame of the call stack: the name `runtime.FuncForPC(pc).Name()` gives for the
function, its source file and the line the function is executing. -/
structure Frame where
  function : String
  file : String
  line : Nat
  deriving DecidableEq, Repr

/-- The Go runtime and library as far as they are left open: the text `debug.Stack()`
returns when called with the given call stack, and the text `fmt` writes for an operand
under a directive whose output the embedding does not spell out (see `Value.plain`). -/
structure Runtime where
  Stack : List Frame → String
  FormatArg : Directive → Value → String

/-- The verbs whose output the embedding spells out for strings, integers, booleans and
nil. -/
def isVerb (c : Char) : Bool :=
  c = 'v' || c = 's' || c = 'd' || c = 't'

/-- Whether the embedding spells out the text of value `v` under the bare verb `c`: the
verbs of `isVerb`, and for a value given by its texts the verb `v` only. -/
def Value.plain : Value → Char → Bool
  | .other _ _ _, c => c = 'v'
  | .func _ _, c => c = 'v'
  | _, c => isVerb c

/-- Whether Go accepts verb `c` for value `v` (for `v` and `c` with `v.plain c`). -/
def Value.accepts : Value → Char → Bool
  | .str _, c => c = 'v' || c = 's'
  | .int _, c => c = 'v' || c = 'd'
  | .bool _, c => c = 'v' || c = 't'
  | .nil, c => c = 'v'
  | .other _ _ _, c => c = 'v'
  | .func _ _, c => c = 'v'

/-- The bad-verb text `%!c(type=value)` of Go, `%!c(<nil>)` for the nil interface. -/
def badVerb (v : Value) (c : Char) : String :=
  match v with
  | .nil => "%!" ++ String.singleton c ++ "(<nil>)"
  | _ => "%!" ++ String.singleton c ++ "(" ++ v.typeString ++ "=" ++ v.text ++ ")"

/-- The text `printArg` writes for operand `v` under directive `d`. -/
def printArg (rt : Runtime) (d : Directive) (v : Value) : String :=
  if d.flags.isEmpty && d.width.isNone && d.prec.isNone && v.plain d.verb then
    if v.accepts d.verb then v.text else badVerb v d.verb
  else rt.FormatArg d v

/-- One operand of the `%!(EXTRA ...)` report. -/
def extraItem (v : Value) : String :=
  match v with
  | .nil => "<nil>"
  | _ => v.typeString ++ "=" ++ v.text

/-- The report `fmt` appends for operands no verb consumed; empty when none is left. -/
def extraArgs (a : List Value) : String :=
  if a.isEmpty then "" else "%!(EXTRA " ++ ", ".intercalate (a.map extraItem) ++ ")"

/-- Where the formatting loop of `fmt` stands in the format: in plain text, or inside a
directive after the `%` and the flags read so far, inside its width, or inside its
precision. -/
inductive Scan where
  | text
  | flags (fl : List Char)
  | width (fl : List Char) (w : Nat)
  | prec (fl : List Char) (w : Option Nat) (p : Nat)
  deriving DecidableEq, Repr

/-- What the formatting loop does with one character. -/
inductive Step where
  | goto (st : Scan)
  | lit (c : Char)
  | directive (d : Directive)
  | unsupported
  deriving DecidableEq, Repr

/-- The flag characters of `fmt`. -/
def isFlag (c : Char) : Bool :=
  c = '#' || c = '0' || c = '+' || c = '-' || c = ' '

/-- One character of the format, read in state `st`.  After `%` come flags, then the
digits of a width, then `.` and the digits of a precision, and the next character is the
verb.  An argument index (`[`), a width or precision taken from the operands (`*`) and a
number above a million are not embedded (`unsupported`). -/
def step (st : Scan) (c : Char) : Step :=
  match st with
  | .text => if c = '%' then .goto (.flags []) else .lit c
  | .flags fl =>
    if isFlag c then .goto (.flags (fl ++ [c]))
    else if c.isDigit then .goto (.width fl (c.toNat - '0'.toNat))
    else if c = '.' then .goto (.prec fl none 0)
    else if c = '[' || c = '*' then .unsupported
    else .directive { flags := fl, width := none, prec := none, verb := c }
  | .width fl w =>
    if c.isDigit then
      if w > 1000000 then .unsupported else .goto (.width fl (w * 10 + (c.toNat - '0'.toNat)))
    else if c = '.' then .goto (.prec fl (some w) 0)
    else if c = '[' || c = '*' then .unsupported
    else .directive { flags := fl, width := some w, prec := none, verb := c }
  | .prec fl w p =>
    if c.isDigit then
      if p > 1000000 then .unsupported else .goto (.prec fl w (p * 10 + (c.toNat - '0'.toNat)))
    else if c = '[' || c = '*' then .unsupported
    else .directive { flags := fl, width := w, prec := some p, verb := c }

/-- The formatting loop of `fmt.Sprintf` over the characters of the format.  Plain text
is copied; the verb `%` writes a percent sign and takes no operand; any other verb takes
the next operand, or writes `%!c(MISSING)` when none is left; a format that ends inside a
directive gives `%!(NOVERB)`; operands left over are reported by `extraArgs`.  The result
is `none` for a format with a directive that is not embedded. -/
def doPrintf (rt : Runtime) : Scan → List Char → List Value → Option String
  | .text, [], a => some (extraArgs a)
  | _, [], a => some ("%!(NOVERB)" ++ extraArgs a)
  | st, c :: fs, a =>
    match step st c with
    | .goto st' => doPrintf rt st' fs a
    | .lit ch => (doPrintf rt .text fs a).map (fun r => String.singleton ch ++ r)
    | .directive d =>
      if d.verb = '%' then (doPrintf rt .text fs a).map (fun r => "%" ++ r)
      else
        match a with
        | [] =>
          (doPrintf rt .text fs []).map
            (fun r => "%!" ++ String.singleton d.verb ++ "(MISSING)" ++ r)
        | x :: a' => (doPrintf rt .text fs a').map (fun r => printArg rt d x ++ r)
    | .unsupported => none

/-- The function `fmt.Sprintf(format, a...)`. -/
def Sprintf (rt : Runtime) (format : String) (a : List Value) : Option String :=
  doPrintf rt .text format.toList a

/-- The loop of `fmt.Sprint`: a space goes between two operands when neither is a string.
`prevString` tells whether the operand before was a string, `first` whether none came
before. -/
def doPrint : List Value → Bool → Bool → String
  | [], _, _ => ""
  | x :: a, first, prevString =>
    (if !first && !x.isString && !prevString then " " else "") ++ x.text
      ++ doPrint a false x.isString

/-- The function `fmt.Sprint(a...)`. -/
def Sprint (a : List Value) : String :=
  doPrint a true false

/-- The function `fmt.Sprintln(a...)` without its final newline, which is what the engine
uses for the `ln` emit functions: operands separated by one space each. -/
def sprintlnn (a : List Value) : String :=
  " ".intercalate (a.map Value.text)

/-- The text of `fmt.Sprintf("%+v", args)` for `args` a slice of interface values: the
elements in order, separated by spaces, between square brackets. -/
def sprintPlusV (args : List Value) : String :=
  "[" ++ " ".intercalate (args.map Value.plusText) ++ "]"

/-- The function `strings.Contains(s, substr)`: `substr` starts at some position of `s`. -/
def stringsContains (s substr : String) : Bool :=
  s.toList.tails.any (fun t => substr.toList.isPrefixOf t)

/-! ## Call stack and caller resolver -/

/-- The function `path.Base`: the last element of a slash-separated path, after removal of
trailing slashes; `.` for the empty path and `/` for a path of slashes only. -/
def pathBase (p : String) : String :=
  if p = "" then "."
  else
    let stripped := (p.toList.reverse.dropWhile (fun c => c = '/')).reverse
    let last := (stripped.reverse.takeWhile (fun c => c != '/')).reverse
    if last.isEmpty then "/" else String.mk last

/-- Import path of the package, the prefix of the runtime names of its functions. -/
def pkgPath : String := "github.com/luckyweiwei/base/logger"

/-- Source file of the package as the runtime reports it.  The directory in front depends
on where the module was built; `getLineNumer` shows the base name only. -/
def loggerGo : String := pkgPath ++ "/logger.go"

/-- The frame of the package function `name` while it executes line `line` of logger.go. -/
def frameOf (name : String) (line : Nat) : Frame :=
  { function := pkgPath ++ "." ++ name, file := loggerGo, line := line }

/-- The call `runtime.Caller(skip)` made with call stack `stk` (innermost frame first, the
frame of the function calling `runtime.Caller` at index 0); `none` when the stack has no
frame at that depth (`ok == false`). -/
def runtimeCaller (stk : List Frame) (skip : Nat) : Option Frame :=
  stk.get? skip

/-- The text `fmt.Sprintf(" (%v:%v:%v)", path.Base(funcName), path.Base(file), line)`. -/
def frameSuffix (f : Frame) : String :=
  " (" ++ pathBase f.function ++ ":" ++ pathBase f.file ++ ":" ++ toString f.line ++ ")"

/-- Method `(*Logger).getLineNumer`, called with `stk` the stack of its callers. -/
def getLineNumer (stk : List Frame) (skip : Nat) : String :=
  match runtimeCaller (frameOf "(*Logger).getLineNumer" 124 :: stk) skip with
  | some f => frameSuffix f
  | none => " (no line number)"

/-! ## The engine -/

/-- Severity levels of the engine. -/
inductive Level where
  | PanicLevel | FatalLevel | ErrorLevel | WarnLevel | InfoLevel | DebugLevel | TraceLevel
  deriving DecidableEq, Repr

/-- The emit functions of the engine that the package dispatches to. -/
inductive EmitFn where
  | Debugf | Infof | Warnf | Warningf | Errorf | Fatalf | Panicf
  | Debug | Info | Print | Warn | Warning | Error | Fatal | Panic
  | Debugln | Infoln | Println | Warnln | Warningln | Errorln | Fatalln | Panicln
  deriving DecidableEq, Repr

/-- One invocation of an emit function of the engine: the function, the format (formatted
functions only) and the argument list it received. -/
structure EngineCall where
  fn : EmitFn
  format : Option String
  args : List Value
  deriving DecidableEq, Repr

/-- One invocation of the engine function `Printf`, which no function of the package
dispatches to: the format and the argument list it received. -/
structure PrintfCall where
  format : String
  args : List Value
  deriving DecidableEq, Repr

/-- The text formatter of the package, with the two fields `LogInit` sets. -/
structure TextFormatter where
  FullTimestamp : Bool
  TimestampFormat : String
  deriving DecidableEq, Repr

/-- Configuration handed to `NewRotateFileHook`. -/
structure RotateFileConfig where
  Filename : String
  MaxSize : Int
  MaxBackups : Int
  MaxAge : Int
  Formatter : TextFormatter
  deriving DecidableEq, Repr

/-- The rotation hook, identified by the configuration it was built from. -/
structure RotateFileHook where
  config : RotateFileConfig
  deriving DecidableEq, Repr

/-- Modelled from the spec: `NewRotateFileHook` is defined in a file of the package that is
not part of the sources at hand; by section 4.5 the hook is configured by file path,
maximum size, maximum backups, maximum age and formatter, which is what the returned hook
keeps. -/
def NewRotateFileHook (config : RotateFileConfig) : RotateFileHook :=
  { config := config }

/-- State of a `*logrus.Logger` as the package sees it: level, hooks, formatter (`none` is
the formatter `logrus.New` installs), the emit calls received so far from the functions of
the package, oldest first, and the calls of `Printf` received so far, oldest first. -/
structure LogrusLogger where
  level : Level
  hooks : List RotateFileHook
  formatter : Option TextFormatter
  calls : List EngineCall
  printfCalls : List PrintfCall
  deriving DecidableEq, Repr

/-- The function `logrus.New()`: level info, no hooks. -/
def logrusNew : LogrusLogger :=
  { level := .InfoLevel, hooks := [], formatter := none, calls := [], printfCalls := [] }

/-- Engine method `SetLevel`. -/
def LogrusLogger.SetLevel (e : LogrusLogger) (l : Level) : LogrusLogger :=
  { e with level := l }

/-- Engine method `AddHook`. -/
def LogrusLogger.AddHook (e : LogrusLogger) (h : RotateFileHook) : LogrusLogger :=
  { e with hooks := e.hooks ++ [h] }

/-- The engine records the call it received. -/
def LogrusLogger.record (e : LogrusLogger) (c : EngineCall) : LogrusLogger :=
  { e with calls := e.calls ++ [c] }

/-- Go type `FLogPrintf`: a formatted emit function, here acting on the engine state. -/
abbrev FLogPrintf := String → List Value → LogrusLogger → LogrusLogger

/-- Go type `FLogPrint`: a positional emit function, here acting on the engine state. -/
abbrev FLogPrint := List Value → LogrusLogger → LogrusLogger

/-- A formatted emit function of the engine. -/
def LogrusLogger.emitf (fn : EmitFn) : FLogPrintf :=
  fun format args e => e.record { fn := fn, format := some format, args := args }

/-- A positional emit function of the engine. -/
def LogrusLogger.emit (fn : EmitFn) : FLogPrint :=
  fun args e => e.record { fn := fn, format := none, args := args }

/-- Engine method `Printf`: the engine records the format and arguments it received. -/
def LogrusLogger.Printf : FLogPrintf :=
  fun format args e =>
    { e with printfCalls := e.printfCalls ++ [{ format := format, args := args }] }

/-- The message the engine builds for a call of its `Printf`: `fmt.Sprintf`. -/
def PrintfCall.message (rt : Runtime) (c : PrintfCall) : Option String :=
  Sprintf rt c.format c.args

/-- The message the engine builds for a recorded call: `fmt.Sprintf` for the formatted
functions, `fmt.Sprintln` without the final newline for the `ln` functions and `fmt.Sprint`
for the others. -/
def EngineCall.message (rt : Runtime) (c : EngineCall) : Option String :=
  match c.format with
  | some format => Sprintf rt format c.args
  | none =>
    match c.fn with
    | .Debugln | .Infoln | .Println | .Warnln | .Warningln | .Errorln | .Fatalln | .Panicln =>
      some (sprintlnn c.args)
    | _ => some (Sprint c.args)

/-! ## The logger and its dispatch helpers -/

/-- The type `Logger`: the embedded `*logrus.Logger` (field `engine`, as a field may not
carry the name of its structure here), and a counter of the `debug.Stack()` calls made
by the methods of this logger (not a field of the Go struct; it makes stack capture
observable). -/
structure Logger where
  engine : LogrusLogger
  stackCaptures : Nat
  deriving DecidableEq, Repr

/-- Method `logPrintf`; `stk` is the stack of its callers. -/
def Logger.logPrintf (log : Logger) (stk : List Frame) (fn : FLogPrintf) (format : String)
    (args : List Value) : Logger :=
  let lineNum := getLineNumer (frameOf "(*Logger).logPrintf" 135 :: stk) 3
  let arr : List Value := []
  let arr := arr ++ args
  let arr := arr ++ [Value.str lineNum]
  { log with engine := fn (format ++ "%v") arr log.engine }

/-- Method `logErrorPrintf`; `stk` is the stack of its callers. -/
def Logger.logErrorPrintf (rt : Runtime) (log : Logger) (stk : List Frame) (fn : FLogPrintf)
    (format : String) (args : List Value) : Logger :=
  let lineNum := getLineNumer (frameOf "(*Logger).logErrorPrintf" 144 :: stk) 3
  let arr : List Value := []
  let arr := arr ++ args
  let arr := arr ++ [Value.str lineNum]
  let stack := rt.Stack (frameOf "(*Logger).logErrorPrintf" 148 :: stk)
  let arr := arr ++ [Value.str ("\n" ++ stack)]
  { engine := fn (format ++ "%v" ++ "%v") arr log.engine,
    stackCaptures := log.stackCaptures + 1 }

/-- Method `logPrint`; `stk` is the stack of its callers. -/
def Logger.logPrint (log : Logger) (stk : List Frame) (fn : FLogPrint) (args : List Value) :
    Logger :=
  let lineNum := getLineNumer (frameOf "(*Logger).logPrint" 153 :: stk) 3
  let arr : List Value := []
  let arr := arr ++ args
  let arr := arr ++ [Value.str lineNum]
  { log with engine := fn arr log.engine }

/-- Method `logErrorPrint`; `stk` is the stack of its callers. -/
def Logger.logErrorPrint (rt : Runtime) (log : Logger) (stk : List Frame) (fn : FLogPrint)
    (args : List Value) : Logger :=
  let lineNum := getLineNumer (frameOf "(*Logger).logErrorPrint" 162 :: stk) 3
  let arr : List Value := []
  let arr := arr ++ args
  let arr := arr ++ [Value.str lineNum]
  let stack := rt.Stack (frameOf "(*Logger).logErrorPrint" 166 :: stk)
  let arr := arr ++ [Value.str ("\n" ++ stack)]
  { engine := fn arr log.engine, stackCaptures := log.stackCaptures + 1 }

/-! ## Leveled entry points

Each takes the stack `stk` of its caller, whose innermost frame is the call site. -/

/-- Method `Debugf`. -/
def Logger.Debugf (log : Logger) (stk : List Frame) (format : String) (args : List Value) :
    Logger :=
  log.logPrintf (frameOf "(*Logger).Debugf" 171 :: stk) (LogrusLogger.emitf .Debugf) format args

/-- Method `Infof`. -/
def Logger.Infof (log : Logger) (stk : List Frame) (format : String) (args : List Value) :
    Logger :=
  log.logPrintf (frameOf "(*Logger).Infof" 175 :: stk) (LogrusLogger.emitf .Infof) format args

/-- Method `Warnf`. -/
def Logger.Warnf (log : Logger) (stk : List Frame) (format : String) (args : List Value) :
    Logger :=
  log.logPrintf (frameOf "(*Logger).Warnf" 179 :: stk) (LogrusLogger.emitf .Warnf) format args

/-- Method `Warningf`. -/
def Logger.Warningf (log : Logger) (stk : List Frame) (format : String) (args : List Value) :
    Logger :=
  log.logPrintf (frameOf "(*Logger).Warningf" 183 :: stk) (LogrusLogger.emitf .Warningf) format args

/-- Method `Errorf`. -/
def Logger.Errorf (rt : Runtime) (log : Logger) (stk : List Frame) (format : String)
    (args : List Value) : Logger :=
  log.logErrorPrintf rt (frameOf "(*Logger).Errorf" 187 :: stk) (LogrusLogger.emitf .Errorf) format args

/-- Method `Fatalf`. -/
def Logger.Fatalf (rt : Runtime) (log : Logger) (stk : List Frame) (format : String)
    (args : List Value) : Logger :=
  log.logErrorPrintf rt (frameOf "(*Logger).Fatalf" 191 :: stk) (LogrusLogger.emitf .Fatalf) format args

/-- Method `Panicf`. -/
def Logger.Panicf (rt : Runtime) (log : Logger) (stk : List Frame) (format : String)
    (args : List Value) : Logger :=
  log.logErrorPrintf rt (frameOf "(*Logger).Panicf" 195 :: stk) (LogrusLogger.emitf .Panicf) format args

/-- Method `Debug`. -/
def Logger.Debug (log : Logger) (stk : List Frame) (args : List Value) : Logger :=
  log.logPrint (frameOf "(*Logger).Debug" 199 :: stk) (LogrusLogger.emit .Debug) args

/-- Method `Info`. -/
def Logger.Info (log : Logger) (stk : List Frame) (args : List Value) : Logger :=
  log.logPrint (frameOf "(*Logger).Info" 203 :: stk) (LogrusLogger.emit .Info) args

/-- Method `Print`. -/
def Logger.Print (log : Logger) (stk : List Frame) (args : List Value) : Logger :=
  log.logPrint (frameOf "(*Logger).Print" 207 :: stk) (LogrusLogger.emit .Print) args

/-- Method `Warn`. -/
def Logger.Warn (log : Logger) (stk : List Frame) (args : List Value) : Logger :=
  log.logPrint (frameOf "(*Logger).Warn" 211 :: stk) (LogrusLogger.emit .Warn) args

/-- Method `Warning`. -/
def Logger.Warning (log : Logger) (stk : List Frame) (args : List Value) : Logger :=
  log.logPrint (frameOf "(*Logger).Warning" 215 :: stk) (LogrusLogger.emit .Warning) args

/-- Method `Error`. -/
def Logger.Error (rt : Runtime) (log : Logger) (stk : List Frame) (args : List Value) :
    Logger :=
  log.logErrorPrint rt (frameOf "(*Logger).Error" 219 :: stk) (LogrusLogger.emit .Error) args

/-- Method `Fatal`. -/
def Logger.Fatal (rt : Runtime) (log : Logger) (stk : List Frame) (args : List Value) :
    Logger :=
  log.logErrorPrint rt (frameOf "(*Logger).Fatal" 223 :: stk) (LogrusLogger.emit .Fatal) args

/-- Method `Panic`. -/
def Logger.Panic (rt : Runtime) (log : Logger) (stk : List Frame) (args : List Value) :
    Logger :=
  log.logErrorPrint rt (frameOf "(*Logger).Panic" 227 :: stk) (LogrusLogger.emit .Panic) args

/-- Method `Debugln`. -/
def Logger.Debugln (log : Logger) (stk : List Frame) (args : List Value) : Logger :=
  log.logPrint (frameOf "(*Logger).Debugln" 231 :: stk) (LogrusLogger.emit .Debugln) args

/-- Method `Infoln`. -/
def Logger.Infoln (log : Logger) (stk : List Frame) (args : List Value) : Logger :=
  log.logPrint (frameOf "(*Logger).Infoln" 235 :: stk) (LogrusLogger.emit .Infoln) args

/-- Method `Println`. -/
def Logger.Println (log : Logger) (stk : List Frame) (args : List Value) : Logger :=
  log.logPrint (frameOf "(*Logger).Println" 239 :: stk) (LogrusLogger.emit .Println) args

/-- Method `Warnln`. -/
def Logger.Warnln (log : Logger) (stk : List Frame) (args : List Value) : Logger :=
  log.logPrint (frameOf "(*Logger).Warnln" 243 :: stk) (LogrusLogger.emit .Warnln) args

/-- Method `Warningln`. -/
def Logger.Warningln (log : Logger) (stk : List Frame) (args : List Value) : Logger :=
  log.logPrint (frameOf "(*Logger).Warningln" 247 :: stk) (LogrusLogger.emit .Warningln) args

/-- Method `Errorln`. -/
def Logger.Errorln (rt : Runtime) (log : Logger) (stk : List Frame) (args : List Value) :
    Logger :=
  log.logErrorPrint rt (frameOf "(*Logger).Errorln" 251 :: stk) (LogrusLogger.emit .Errorln) args

/-- Method `Fatalln`. -/
def Logger.Fatalln (rt : Runtime) (log : Logger) (stk : List Frame) (args : List Value) :
    Logger :=
  log.logErrorPrint rt (frameOf "(*Logger).Fatalln" 255 :: stk) (LogrusLogger.emit .Fatalln) args

/-- Method `Panicln`. -/
def Logger.Panicln (rt : Runtime) (log : Logger) (stk : List Frame) (args : List Value) :
    Logger :=
  log.logErrorPrint rt (frameOf "(*Logger).Panicln" 259 :: stk) (LogrusLogger.emit .Panicln) args

/-- Method `Printf` of `*Logger`.  logger.go defines `Print` and `Println` but no
`Printf`; `Logger` embeds `*logrus.Logger` (lines 18 to 20), so `*Logger` has the engine's
`Printf` by promotion and `log.Printf(format, args...)` is the engine's method on the
caller's format and arguments.  No function of the package runs, so the stack of the caller
is not looked at. -/
def Logger.Printf (log : Logger) (_stk : List Frame) (format : String) (args : List Value) :
    Logger :=
  { log with engine := LogrusLogger.Printf format args log.engine }

/-- Method `SqlDebug`. -/
def Logger.SqlDebug (rt : Runtime) (log : Logger) (stk : List Frame) (args : List Value) :
    Logger :=
  let argstr := sprintPlusV args
  let ignorestr := "/*no print*/"
  if stringsContains argstr ignorestr then log
  else if stringsContains argstr "Error" then
    log.Error rt (frameOf "(*Logger).SqlDebug" 281 :: stk) args
  else
    log.Debug (frameOf "(*Logger).SqlDebug" 283 :: stk) args

/-- Method `SetLogLevel`. -/
def Logger.SetLogLevel (log : Logger) (level : String) : Logger :=
  if level = "INFO" then { log with engine := log.engine.SetLevel .InfoLevel }
  else if level = "WARN" then { log with engine := log.engine.SetLevel .WarnLevel }
  else if level = "ERROR" then { log with engine := log.engine.SetLevel .ErrorLevel }
  else if level = "DEBUG" then { log with engine := log.engine.SetLevel .DebugLevel }
  else { log with engine := log.engine.SetLevel .InfoLevel }

/-! ## Field enrichment -/

/-- Contents of a map object with string keys: the value bound to each key, if any. -/
abbrev MapData := String → Option Value

/-- The empty map contents. -/
def MapData.empty : MapData := fun _ => none

/-- The assignment `m[k] = v` on the contents of a map object. -/
def MapData.set (m : MapData) (k : String) (v : Value) : MapData :=
  fun k' => if k' = k then some v else m k'

/-- A value of the Go map type `logrus.Fields`: the nil map, or a reference to a map object
with the given contents. -/
inductive Fields where
  | nil
  | made (m : MapData)

/-- Reading `fields[k]`; a nil map reads as empty. -/
def Fields.lookup : Fields → String → Option Value
  | .nil, _ => none
  | .made m, k => m k

/-- A map literal with the given entries: the entries are assigned to a new map object in
source order. -/
def Fields.literal (entries : List (String × Value)) : Fields :=
  .made (entries.foldl (fun m kv => m.set kv.1 kv.2) MapData.empty)

/-- The logging context the engine returns from `WithFields`, with its field set. -/
structure Entry where
  Data : MapData

/-- Engine method `WithFields`: a new entry whose data are a copy of the fields given,
except that the engine refuses a field whose value is a function or a pointer to a function
and leaves it out of the data.  (The note the engine keeps on the entry about a refused
field is not embedded.) -/
def LogrusLogger.WithFields (_e : LogrusLogger) (fields : Fields) : Entry :=
  { Data := fun k => (fields.lookup k).filter (fun v => !v.isFunc) }

/-- Method `WithField`. -/
def Logger.WithField (log : Logger) (stk : List Frame) (key : String) (value : Value) :
    Entry :=
  let lineNum := getLineNumer (frameOf "(*Logger).WithField" 289 :: stk) 2
  let fields := Fields.literal [(key, value), ("~LineNum", Value.str lineNum)]
  log.engine.WithFields fields

/-- Method `WithFields`.  The map is passed by reference, so the result gives, next to the
entry, the contents of the caller's map after the call.  Assigning to the nil map is a
run-time panic, returned as an error. -/
def Logger.WithFields (log : Logger) (stk : List Frame) (fields : Fields) :
    Except String (Fields × Entry) :=
  let lineNum := getLineNumer (frameOf "(*Logger).WithFields" 300 :: stk) 2
  match fields with
  | .nil => .error "assignment to entry in nil map"
  | .made m =>
    let fields := Fields.made (m.set "~LineNum" (Value.str lineNum))
    .ok (fields, log.engine.WithFields fields)

/-! ## Configuration and initialisation -/

/-- The type `TLogConfig`. -/
structure TLogConfig where
  MaxSize : Int
  MaxBackups : Int
  MaxAge : Int
  Level : String
  deriving DecidableEq, Repr

/-- The process state `LogInit` works on.  `Log` is the package variable (`none` is the nil
pointer, `some a` the address of a logger object), `heap` holds the logger objects allocated
so far, the address of an object being its index.  `statErr` is the error of
`os.Stat("./config/log.toml")` if it fails, `decoded` the result of `toml.DecodeFile` on
that file, `lookPath` the path `exec.LookPath(os.Args[0])` returns.  `stdout` collects what
is printed and `configReads` counts the calls of `readLogConfig`. -/
structure World where
  Log : Option Nat
  heap : List Logger
  statErr : Option String
  decoded : Except String TLogConfig
  lookPath : String
  stdout : List String
  configReads : Nat

/-- The function `readLogConfig`. -/
def readLogConfig (w : World) : World × Except String TLogConfig :=
  let w := { w with configReads := w.configReads + 1 }
  match w.statErr with
  | some err => (w, .error err)
  | none =>
    match w.decoded with
    | .error err => (w, .error err)
    | .ok config => (w, .ok config)

/-- The function `LogInit`, its body run as one step (it holds the package mutex from entry
to return).  `stk` is the stack of the caller.  The result is the new process state and the
pointer returned. -/
def LogInit (w : World) (stk : List Frame) : World × Option Nat :=
  match w.Log with
  | none =>
    let (w, r) := readLogConfig w
    let (w, config) :=
      match r with
      | .error err =>
        ({ w with stdout := w.stdout ++ ["read log config failed, err = " ++ err ++ "\n",
                                         "will use default log config\n"] },
         ({ MaxSize := 1024, MaxBackups := 10, MaxAge := 7, Level := "DEBUG" } : TLogConfig))
      | .ok config => (w, config)
    let addr := w.heap.length
    let log : Logger := { engine := logrusNew, stackCaptures := 0 }
    let formatter : TextFormatter :=
      { FullTimestamp := true, TimestampFormat := "2006-01-02 15:04:05.000" }
    let fullPath := w.lookPath
    let fname := pathBase fullPath
    let hook := NewRotateFileHook
      { Filename := "./log/" ++ fname ++ ".log",
        MaxSize := config.MaxSize,
        MaxBackups := config.MaxBackups,
        MaxAge := config.MaxAge,
        Formatter := formatter }
    let log := { log with engine := log.engine.AddHook hook }
    let log := { log with engine := { log.engine with formatter := some formatter } }
    let log := log.SetLogLevel config.Level
    let log := log.Info (frameOf "LogInit" 64 :: stk) [Value.str "logger init"]
    ({ w with heap := w.heap ++ [log], Log := some addr }, some addr)
  | some a => (w, some a)

/-- A sequence of `LogInit` calls, one per caller stack, executed one after the other; the
result is the final process state and the pointers returned, in call order. -/
def runLogInit : World → List (List Frame) → World × List (Option Nat)
  | w, [] => (w, [])
  | w, stk :: rest =>
    let (w1, h) := LogInit w stk
    let (w2, hs) := runLogInit w1 rest
    (w2, h :: hs)

/-! ## Vocabulary of the statements -/

/-- The suffix that names the call site: the innermost frame of the caller's stack, and the
placeholder when the caller's stack has no frame. -/
def callerSuffix (stk : List Frame) : String :=
  match stk with
  | site :: _ => frameSuffix site
  | [] => " (no line number)"

/-- The formatted entry points. -/
def EmitFn.formatted : EmitFn → Bool
  | .Debugf | .Infof | .Warnf | .Warningf | .Errorf | .Fatalf | .Panicf => true
  | _ => false

/-- The entry points of the error tier: error, fatal and panic in their three variants. -/
def EmitFn.errorTier : EmitFn → Bool
  | .Errorf | .Fatalf | .Panicf | .Error | .Fatal | .Panic | .Errorln | .Fatalln
  | .Panicln => true
  | _ => false

/-- The `ln` entry points. -/
def EmitFn.ln : EmitFn → Bool
  | .Debugln | .Infoln | .Println | .Warnln | .Warningln | .Errorln | .Fatalln
  | .Panicln => true
  | _ => false

/-- The call of the entry point of the logger that carries the name of `ep`, from a caller
with stack `stk`; the format is used by the formatted entry points only. -/
def Logger.invoke (rt : Runtime) (log : Logger) (stk : List Frame) (ep : EmitFn)
    (format : String) (args : List Value) : Logger :=
  match ep with
  | .Debugf => log.Debugf stk format args
  | .Infof => log.Infof stk format args
  | .Warnf => log.Warnf stk format args
  | .Warningf => log.Warningf stk format args
  | .Errorf => log.Errorf rt stk format args
  | .Fatalf => log.Fatalf rt stk format args
  | .Panicf => log.Panicf rt stk format args
  | .Debug => log.Debug stk args
  | .Info => log.Info stk args
  | .Print => log.Print stk args
  | .Warn => log.Warn stk args
  | .Warning => log.Warning stk args
  | .Debugln => log.Debugln stk args
  | .Infoln => log.Infoln stk args
  | .Println => log.Println stk args
  | .Warnln => log.Warnln stk args
  | .Warningln => log.Warningln stk args
  | .Error => log.Error rt stk args
  | .Fatal => log.Fatal rt stk args
  | .Panic => log.Panic rt stk args
  | .Errorln => log.Errorln rt stk args
  | .Fatalln => log.Fatalln rt stk args
  | .Panicln => log.Panicln rt stk args

/-- The call the engine would receive if the caller's own format and arguments were handed
to the emit function `ep` unchanged. -/
def ownCall (ep : EmitFn) (format : String) (args : List Value) : EngineCall :=
  { fn := ep, format := if ep.formatted then some format else none, args := args }

/-- A format, read from state `st`, whose directives consume exactly the operands given:
every directive is embedded and complete, every verb other than `%` finds an operand, no
operand is left over and the format does not end inside a directive. -/
def consumes : Scan → List Char → List Value → Bool
  | .text, [], a => a.isEmpty
  | _, [], _ => false
  | st, c :: fs, a =>
    match step st c with
    | .goto st' => consumes st' fs a
    | .lit _ => consumes .text fs a
    | .directive d =>
      if d.verb = '%' then consumes .text fs a
      else
        match a with
        | [] => false
        | _ :: a' => consumes .text fs a'
    | .unsupported => false

/-- The text that follows the caller's own message in the message of an entry point:
the suffix and, at error tier, the stack element; the `ln` functions put a space before
every operand but the first. -/
def trailer (ep : EmitFn) (args : List Value) (suffix stack : String) : String :=
  if ep.ln then
    (if args.isEmpty then "" else " ") ++ suffix ++ (if ep.errorTier then " " ++ stack else "")
  else suffix ++ (if ep.errorTier then stack else "")

/-- A call site used in the examples: line 7 of main.go, in function `main.run`. -/
def exampleSite : Frame :=
  { function := "main.run", file := "/app/main.go", line := 7 }

/-- A runtime used in the examples; the examples use no directive that reaches
`FormatArg`. -/
def exampleRuntime : Runtime :=
  { Stack := fun _ => "goroutine 1 [running]:",
    FormatArg := fun _ v => v.text }

/-- A logger used in the examples: a new engine, no stack captured yet. -/
def exampleLogger : Logger :=
  { engine := logrusNew, stackCaptures := 0 }

/-- A process state used in the examples: no logger yet, the config file is missing. -/
def exampleWorld : World :=
  { Log := none, heap := [],
    statErr := some "stat ./config/log.toml: no such file or directory",
    decoded := .error "open ./config/log.toml: no such file or directory",
    lookPath := "/usr/local/bin/app", stdout := [], configReads := 0 }

/-- A process state used in the examples: no logger yet, the config file is readable. -/
def exampleWorldLoaded : World :=
  { exampleWorld with
    statErr := none,
    decoded := .ok { MaxSize := 5, MaxBackups := 2, MaxAge := 1, Level := "WARN" } }

/-- The level `SetLogLevel` selects for a level name. -/
def levelOf (level : String) : Level :=
  if level = "DEBUG" then .DebugLevel
  else if level = "WARN" then .WarnLevel
  else if level = "ERROR" then .ErrorLevel
  else .InfoLevel

/-- The configuration `LogInit` falls back to. -/
def defaultConfig : TLogConfig :=
  { MaxSize := 1024, MaxBackups := 10, MaxAge := 7, Level := "DEBUG" }

/-- The logger object a first `LogInit` is expected to build from a configuration: a new
engine with the rotation hook of that configuration as its only hook, the text formatter,
the level named by the configuration, and the one record "logger init" emitted at info
level from line 64 of `LogInit`. -/
def builtLogger (lookPath : String) (config : TLogConfig) : Logger :=
  let formatter : TextFormatter :=
    { FullTimestamp := true, TimestampFormat := "2006-01-02 15:04:05.000" }
  { engine :=
      { level := levelOf config.Level,
        hooks := [NewRotateFileHook
          { Filename := "./log/" ++ pathBase lookPath ++ ".log",
            MaxSize := config.MaxSize, MaxBackups := config.MaxBackups,
            MaxAge := config.MaxAge, Formatter := formatter }],
        formatter := some formatter,
        calls := [{ fn := EmitFn.Info, format := none,
                    args := [Value.str "logger init",
                             Value.str " (logger.LogInit:logger.go:64)"] }],
        printfCalls := [] },
    stackCaptures := 0 }

/-! ## Lemmas on the library functions -/

theorem getLineNumer_three (f1 f2 : Frame) (stk : List Frame) :
    getLineNumer (f1 :: f2 :: stk) 3 = callerSuffix stk := by
  cases stk <;> rfl

theorem getLineNumer_two (f1 : Frame) (stk : List Frame) :
    getLineNumer (f1 :: stk) 2 = callerSuffix stk := by
  cases stk <;> rfl

theorem getLineNumer_unresolved (stk : List Frame) (skip : Nat)
    (h : stk.length < skip) : getLineNumer stk skip = " (no line number)" := by
  unfold getLineNumer runtimeCaller
  have : (frameOf "(*Logger).getLineNumer" 124 :: stk).get? skip = none := by
    rw [List.get?_eq_none]
    simpa using h
  rw [this]

theorem consumes_cons (st : Scan) (c : Char) (fs : List Char) (a : List Value) :
    consumes st (c :: fs) a =
      match step st c with
      | .goto st' => consumes st' fs a
      | .lit _ => consumes .text fs a
      | .directive d =>
        if d.verb = '%' then consumes .text fs a
        else
          match a with
          | [] => false
          | _ :: a' => consumes .text fs a'
      | .unsupported => false := by
  cases st <;> rfl

theorem doPrintf_cons (rt : Runtime) (st : Scan) (c : Char) (fs : List Char)
    (a : List Value) :
    doPrintf rt st (c :: fs) a =
      match step st c with
      | .goto st' => doPrintf rt st' fs a
      | .lit ch => (doPrintf rt .text fs a).map (fun r => String.singleton ch ++ r)
      | .directive d =>
        if d.verb = '%' then (doPrintf rt .text fs a).map (fun r => "%" ++ r)
        else
          match a with
          | [] =>
            (doPrintf rt .text fs []).map
              (fun r => "%!" ++ String.singleton d.verb ++ "(MISSING)" ++ r)
          | x :: a' => (doPrintf rt .text fs a').map (fun r => printArg rt d x ++ r)
      | .unsupported => none := by
  cases st <;> rfl

theorem doPrintf_append (rt : Runtime) (g : List Char) (b : List Value) :
    ∀ (f : List Char) (st : Scan) (a : List Value), consumes st f a = true →
      ∃ m, doPrintf rt st f a = some m ∧
        doPrintf rt st (f ++ g) (a ++ b) = (doPrintf rt .text g b).map (fun r => m ++ r) := by
  intro f
  induction f with
  | nil =>
    intro st a h
    cases st <;> simp [consumes] at h
    subst h
    exact ⟨"", by simp [doPrintf, extraArgs], by simp⟩
  | cons c fs ih =>
    intro st a h
    rw [consumes_cons] at h
    rw [List.cons_append, doPrintf_cons, doPrintf_cons]
    cases hstep : step st c with
    | goto st' =>
      rw [hstep] at h
      exact ih st' a h
    | lit ch =>
      rw [hstep] at h
      obtain ⟨m, hm, happ⟩ := ih .text a h
      refine ⟨String.singleton ch ++ m, by simp [hm], ?_⟩
      simp [happ, Function.comp_def, String.append_assoc]
    | directive d =>
      rw [hstep] at h
      by_cases hv : d.verb = '%'
      · simp only [hv, if_true] at h ⊢
        obtain ⟨m, hm, happ⟩ := ih .text a h
        refine ⟨"%" ++ m, by simp [hm], ?_⟩
        simp [happ, Function.comp_def, String.append_assoc]
      · simp only [hv, if_false] at h ⊢
        cases a with
        | nil => simp at h
        | cons x a' =>
          obtain ⟨m, hm, happ⟩ := ih .text a' h
          refine ⟨printArg rt d x ++ m, by simp [hm], ?_⟩
          simp [happ, Function.comp_def, String.append_assoc]
    | unsupported =>
      rw [hstep] at h
      simp at h

theorem doPrint_append_str (s : String) :
    ∀ (a : List Value) (first prev : Bool),
      doPrint (a ++ [Value.str s]) first prev = doPrint a first prev ++ s := by
  intro a
  induction a with
  | nil => intro first prev; simp [doPrint, Value.isString, Value.text]
  | cons x a ih => intro first prev; simp [doPrint, ih, String.append_assoc]

theorem doPrint_append_str_str (s t : String) :
    ∀ (a : List Value) (first prev : Bool),
      doPrint (a ++ [Value.str s, Value.str t]) first prev = doPrint a first prev ++ (s ++ t) := by
  intro a
  induction a with
  | nil => intro first prev; simp [doPrint, Value.isString, Value.text]
  | cons x a ih => intro first prev; simp [doPrint, ih, String.append_assoc]

theorem intercalate_go_append (sep x : String) :
    ∀ (l : List String) (acc : String),
      String.intercalate.go acc sep (l ++ [x]) = String.intercalate.go acc sep l ++ sep ++ x := by
  intro l
  induction l with
  | nil => intro acc; simp [String.intercalate.go]
  | cons y l ih => intro acc; simp [String.intercalate.go, ih]

theorem intercalate_append_one (sep x : String) (l : List String) :
    sep.intercalate (l ++ [x]) = (if l.isEmpty then "" else sep.intercalate l ++ sep) ++ x := by
  cases l with
  | nil => simp [String.intercalate, String.intercalate.go]
  | cons y l => simp [String.intercalate, intercalate_go_append]

/-! ## The SQL filter -/

/-- C1: when the rendering of the arguments contains the no-print marker, `SqlDebug` leaves
the logger as it was: no emit function of the engine is called at any tier and no stack is
captured, whether or not the rendering also contains "Error". -/
theorem SqlDebug_marker_suppresses (rt : Runtime) (log : Logger) (stk : List Frame)
    (args : List Value)
    (h : stringsContains (sprintPlusV args) "/*no print*/" = true) :
    log.SqlDebug rt stk args = log := by
  simp [Logger.SqlDebug, h]

theorem SqlDebug_marker_suppresses_witness :
    stringsContains (sprintPlusV [Value.str "Error /*no print*/ select 1"]) "Error" = true ∧
    exampleLogger.SqlDebug exampleRuntime [exampleSite]
      [Value.str "Error /*no print*/ select 1"] = exampleLogger :=
  ⟨by decide,
   SqlDebug_marker_suppresses exampleRuntime exampleLogger [exampleSite]
     [Value.str "Error /*no print*/ select 1"] (by decide)⟩

/-- C2: when the rendering of the arguments does not contain the no-print marker,
`SqlDebug` is one call of `Error` if the rendering contains "Error" and one call of `Debug`
otherwise, so the engine receives exactly one more call, of its `Error` function in the
first case and of its `Debug` function in the second, whose arguments start with the
original arguments; a stack is captured in the first case only.  "ErrorCode=0" is classified
as error, "error" is not. -/
theorem SqlDebug_classifies (rt : Runtime) (log : Logger) (stk : List Frame)
    (args : List Value)
    (h : stringsContains (sprintPlusV args) "/*no print*/" = false) :
    (log.SqlDebug rt stk args =
      if stringsContains (sprintPlusV args) "Error" then
        log.Error rt (frameOf "(*Logger).SqlDebug" 281 :: stk) args
      else log.Debug (frameOf "(*Logger).SqlDebug" 283 :: stk) args) ∧
    (∃ extra : List Value,
      (log.SqlDebug rt stk args).engine.calls = log.engine.calls ++
        [{ fn := if stringsContains (sprintPlusV args) "Error" then EmitFn.Error
                 else EmitFn.Debug,
           format := none, args := args ++ extra }]) ∧
    ((log.SqlDebug rt stk args).stackCaptures =
      if stringsContains (sprintPlusV args) "Error" then log.stackCaptures + 1
      else log.stackCaptures) ∧
    stringsContains (sprintPlusV [Value.str "ErrorCode=0"]) "Error" = true ∧
    stringsContains (sprintPlusV [Value.str "error"]) "Error" = false := by
  refine ⟨by simp [Logger.SqlDebug, h], ?_, ?_, by decide, by decide⟩
  · by_cases he : stringsContains (sprintPlusV args) "Error" = true
    · exact ⟨_, by simp [Logger.SqlDebug, h, he, Logger.Error, Logger.logErrorPrint,
        LogrusLogger.emit, LogrusLogger.record]; rfl⟩
    · exact ⟨_, by simp [Logger.SqlDebug, h, he, Logger.Debug, Logger.logPrint,
        LogrusLogger.emit, LogrusLogger.record]; rfl⟩
  · by_cases he : stringsContains (sprintPlusV args) "Error" = true
    · simp [Logger.SqlDebug, h, he, Logger.Error, Logger.logErrorPrint]
    · simp [Logger.SqlDebug, h, he, Logger.Debug, Logger.logPrint]

theorem SqlDebug_classifies_witness :
    (exampleLogger.SqlDebug exampleRuntime [exampleSite] [Value.str "ErrorCode=0"]).engine.calls
      = [{ fn := EmitFn.Error, format := none,
           args := [Value.str "ErrorCode=0",
                    Value.str " (logger.(*Logger).SqlDebug:logger.go:281)",
                    Value.str "\ngoroutine 1 [running]:"] }] ∧
    (exampleLogger.SqlDebug exampleRuntime [exampleSite] [Value.str "ErrorCode=0"] =
      if stringsContains (sprintPlusV [Value.str "ErrorCode=0"]) "Error" then
        exampleLogger.Error exampleRuntime (frameOf "(*Logger).SqlDebug" 281 :: [exampleSite])
          [Value.str "ErrorCode=0"]
      else exampleLogger.Debug (frameOf "(*Logger).SqlDebug" 283 :: [exampleSite])
          [Value.str "ErrorCode=0"]) :=
  ⟨by decide,
   (SqlDebug_classifies exampleRuntime exampleLogger [exampleSite] [Value.str "ErrorCode=0"]
     (by decide)).1⟩

/-! ## Level names -/

/-- C3: for every string `s`, `SetLogLevel s` sets the engine level to debug, warn or error
when `s` is exactly "DEBUG", "WARN" or "ERROR" and to info for every other string, and
changes nothing else; so every other string, "bogus" and "warn" among them, leaves the
logger in the state `SetLogLevel "INFO"` leaves it in.  The method has no error result. -/
theorem SetLogLevel_mapping (log : Logger) (s : String) :
    (log.SetLogLevel s).engine.level =
      (if s = "DEBUG" then Level.DebugLevel
       else if s = "WARN" then Level.WarnLevel
       else if s = "ERROR" then Level.ErrorLevel
       else Level.InfoLevel) ∧
    log.SetLogLevel s =
      { log with engine := { log.engine with level := (log.SetLogLevel s).engine.level } } ∧
    log.SetLogLevel s =
      log.SetLogLevel (if s = "DEBUG" ∨ s = "WARN" ∨ s = "ERROR" then s else "INFO") ∧
    log.SetLogLevel "bogus" = log.SetLogLevel "INFO" ∧
    log.SetLogLevel "warn" = log.SetLogLevel "INFO" := by
  refine ⟨?_, ?_, ?_, by simp [Logger.SetLogLevel], by simp [Logger.SetLogLevel]⟩
  · unfold Logger.SetLogLevel LogrusLogger.SetLevel
    by_cases h1 : s = "INFO"
    · subst h1; simp
    · by_cases h2 : s = "WARN"
      · subst h2; simp
      · by_cases h3 : s = "ERROR"
        · subst h3; simp
        · by_cases h4 : s = "DEBUG"
          · subst h4; simp
          · simp [h1, h2, h3, h4]
  · unfold Logger.SetLogLevel LogrusLogger.SetLevel
    split_ifs <;> rfl
  · by_cases h1 : s = "DEBUG"
    · simp [h1]
    · by_cases h2 : s = "WARN"
      · simp [h2]
      · by_cases h3 : s = "ERROR"
        · simp [h3]
        · simp [h1, h2, h3, Logger.SetLogLevel]

/-! ## Dispatch -/

/-- The 23 entry points logger.go defines in lines 170 to 260: each of the nine of the
error tier hands the engine the original arguments, then the caller suffix, then one last
element made of a newline and the text of a stack captured inside the dispatch helper (two
frames above the caller), and captures exactly one stack; each of the fourteen below the
error tier hands the engine the original arguments and then the caller suffix only, and
captures no stack.  The formatted ones pass the format with one `%v` appended per added
element. -/
theorem invoke_eq (rt : Runtime) (log : Logger) (stk : List Frame)
    (ep : EmitFn) (format : String) (args : List Value) :
    ∃ inner : List Frame, inner.length = 2 ∧
      "\n" ++ rt.Stack (inner ++ stk) ≠ "" ∧
      log.invoke rt stk ep format args =
        { engine := log.engine.record
            { fn := ep,
              format :=
                if ep.formatted then
                  some (if ep.errorTier then format ++ "%v" ++ "%v" else format ++ "%v")
                else none,
              args :=
                if ep.errorTier then
                  args ++ [Value.str (callerSuffix stk),
                           Value.str ("\n" ++ rt.Stack (inner ++ stk))]
                else args ++ [Value.str (callerSuffix stk)] },
          stackCaptures :=
            if ep.errorTier then log.stackCaptures + 1 else log.stackCaptures } := by
  have hne : ∀ t : String, "\n" ++ t ≠ "" := by
    intro t h
    have hlen := congrArg String.length h
    simp at hlen
    exact absurd hlen.1 (by decide)
  cases ep
  case Debugf =>
    exact ⟨[frameOf "(*Logger).logPrintf" 135, frameOf "(*Logger).Debugf" 171], rfl, hne _, by
      simp [Logger.invoke, Logger.Debugf, Logger.logPrintf, getLineNumer_three,
        LogrusLogger.emitf, EmitFn.formatted, EmitFn.errorTier]⟩
  case Infof =>
    exact ⟨[frameOf "(*Logger).logPrintf" 135, frameOf "(*Logger).Infof" 175], rfl, hne _, by
      simp [Logger.invoke, Logger.Infof, Logger.logPrintf, getLineNumer_three,
        LogrusLogger.emitf, EmitFn.formatted, EmitFn.errorTier]⟩
  case Warnf =>
    exact ⟨[frameOf "(*Logger).logPrintf" 135, frameOf "(*Logger).Warnf" 179], rfl, hne _, by
      simp [Logger.invoke, Logger.Warnf, Logger.logPrintf, getLineNumer_three,
        LogrusLogger.emitf, EmitFn.formatted, EmitFn.errorTier]⟩
  case Warningf =>
    exact ⟨[frameOf "(*Logger).logPrintf" 135, frameOf "(*Logger).Warningf" 183], rfl, hne _, by
      simp [Logger.invoke, Logger.Warningf, Logger.logPrintf, getLineNumer_three,
        LogrusLogger.emitf, EmitFn.formatted, EmitFn.errorTier]⟩
  case Errorf =>
    exact ⟨[frameOf "(*Logger).logErrorPrintf" 148, frameOf "(*Logger).Errorf" 187], rfl, hne _, by
      simp [Logger.invoke, Logger.Errorf, Logger.logErrorPrintf, getLineNumer_three,
        LogrusLogger.emitf, EmitFn.formatted, EmitFn.errorTier]⟩
  case Fatalf =>
    exact ⟨[frameOf "(*Logger).logErrorPrintf" 148, frameOf "(*Logger).Fatalf" 191], rfl, hne _, by
      simp [Logger.invoke, Logger.Fatalf, Logger.logErrorPrintf, getLineNumer_three,
        LogrusLogger.emitf, EmitFn.formatted, EmitFn.errorTier]⟩
  case Panicf =>
    exact ⟨[frameOf "(*Logger).logErrorPrintf" 148, frameOf "(*Logger).Panicf" 195], rfl, hne _, by
      simp [Logger.invoke, Logger.Panicf, Logger.logErrorPrintf, getLineNumer_three,
        LogrusLogger.emitf, EmitFn.formatted, EmitFn.errorTier]⟩
  case Debug =>
    exact ⟨[frameOf "(*Logger).logPrint" 153, frameOf "(*Logger).Debug" 199], rfl, hne _, by
      simp [Logger.invoke, Logger.Debug, Logger.logPrint, getLineNumer_three,
        LogrusLogger.emit, EmitFn.formatted, EmitFn.errorTier]⟩
  case Info =>
    exact ⟨[frameOf "(*Logger).logPrint" 153, frameOf "(*Logger).Info" 203], rfl, hne _, by
      simp [Logger.invoke, Logger.Info, Logger.logPrint, getLineNumer_three,
        LogrusLogger.emit, EmitFn.formatted, EmitFn.errorTier]⟩
  case Print =>
    exact ⟨[frameOf "(*Logger).logPrint" 153, frameOf "(*Logger).Print" 207], rfl, hne _, by
      simp [Logger.invoke, Logger.Print, Logger.logPrint, getLineNumer_three,
        LogrusLogger.emit, EmitFn.formatted, EmitFn.errorTier]⟩
  case Warn =>
    exact ⟨[frameOf "(*Logger).logPrint" 153, frameOf "(*Logger).Warn" 211], rfl, hne _, by
      simp [Logger.invoke, Logger.Warn, Logger.logPrint, getLineNumer_three,
        LogrusLogger.emit, EmitFn.formatted, EmitFn.errorTier]⟩
  case Warning =>
    exact ⟨[frameOf "(*Logger).logPrint" 153, frameOf "(*Logger).Warning" 215], rfl, hne _, by
      simp [Logger.invoke, Logger.Warning, Logger.logPrint, getLineNumer_three,
        LogrusLogger.emit, EmitFn.formatted, EmitFn.errorTier]⟩
  case Debugln =>
    exact ⟨[frameOf "(*Logger).logPrint" 153, frameOf "(*Logger).Debugln" 231], rfl, hne _, by
      simp [Logger.invoke, Logger.Debugln, Logger.logPrint, getLineNumer_three,
        LogrusLogger.emit, EmitFn.formatted, EmitFn.errorTier]⟩
  case Infoln =>
    exact ⟨[frameOf "(*Logger).logPrint" 153, frameOf "(*Logger).Infoln" 235], rfl, hne _, by
      simp [Logger.invoke, Logger.Infoln, Logger.logPrint, getLineNumer_three,
        LogrusLogger.emit, EmitFn.formatted, EmitFn.errorTier]⟩
  case Println =>
    exact ⟨[frameOf "(*Logger).logPrint" 153, frameOf "(*Logger).Println" 239], rfl, hne _, by
      simp [Logger.invoke, Logger.Println, Logger.logPrint, getLineNumer_three,
        LogrusLogger.emit, EmitFn.formatted, EmitFn.errorTier]⟩
  case Warnln =>
    exact ⟨[frameOf "(*Logger).logPrint" 153, frameOf "(*Logger).Warnln" 243], rfl, hne _, by
      simp [Logger.invoke, Logger.Warnln, Logger.logPrint, getLineNumer_three,
        LogrusLogger.emit, EmitFn.formatted, EmitFn.errorTier]⟩
  case Warningln =>
    exact ⟨[frameOf "(*Logger).logPrint" 153, frameOf "(*Logger).Warningln" 247], rfl, hne _, by
      simp [Logger.invoke, Logger.Warningln, Logger.logPrint, getLineNumer_three,
        LogrusLogger.emit, EmitFn.formatted, EmitFn.errorTier]⟩
  case Error =>
    exact ⟨[frameOf "(*Logger).logErrorPrint" 166, frameOf "(*Logger).Error" 219], rfl, hne _, by
      simp [Logger.invoke, Logger.Error, Logger.logErrorPrint, getLineNumer_three,
        LogrusLogger.emit, EmitFn.formatted, EmitFn.errorTier]⟩
  case Fatal =>
    exact ⟨[frameOf "(*Logger).logErrorPrint" 166, frameOf "(*Logger).Fatal" 223], rfl, hne _, by
      simp [Logger.invoke, Logger.Fatal, Logger.logErrorPrint, getLineNumer_three,
        LogrusLogger.emit, EmitFn.formatted, EmitFn.errorTier]⟩
  case Panic =>
    exact ⟨[frameOf "(*Logger).logErrorPrint" 166, frameOf "(*Logger).Panic" 227], rfl, hne _, by
      simp [Logger.invoke, Logger.Panic, Logger.logErrorPrint, getLineNumer_three,
        LogrusLogger.emit, EmitFn.formatted, EmitFn.errorTier]⟩
  case Errorln =>
    exact ⟨[frameOf "(*Logger).logErrorPrint" 166, frameOf "(*Logger).Errorln" 251], rfl, hne _, by
      simp [Logger.invoke, Logger.Errorln, Logger.logErrorPrint, getLineNumer_three,
        LogrusLogger.emit, EmitFn.formatted, EmitFn.errorTier]⟩
  case Fatalln =>
    exact ⟨[frameOf "(*Logger).logErrorPrint" 166, frameOf "(*Logger).Fatalln" 255], rfl, hne _, by
      simp [Logger.invoke, Logger.Fatalln, Logger.logErrorPrint, getLineNumer_three,
        LogrusLogger.emit, EmitFn.formatted, EmitFn.errorTier]⟩
  case Panicln =>
    exact ⟨[frameOf "(*Logger).logErrorPrint" 166, frameOf "(*Logger).Panicln" 259], rfl, hne _, by
      simp [Logger.invoke, Logger.Panicln, Logger.logErrorPrint, getLineNumer_three,
        LogrusLogger.emit, EmitFn.formatted, EmitFn.errorTier]⟩

/-- C4, the code at the failing input: `Printf("x=%v", 1)` called from line 7 of main.go
reaches the engine's `Printf` with the format and the one argument the caller gave: no
`%v` is appended, no caller suffix follows the argument, no function of the package is
involved, and the message is `x=1`.  `Print(1)` and `Println(1)` called from the same place
hand the engine the argument followed by the suffix ` (main.run:main.go:7)`. -/
theorem Printf_hands_no_suffix :
    (exampleLogger.Printf [exampleSite] "x=%v" [Value.int 1]).engine.printfCalls
      = [{ format := "x=%v", args := [Value.int 1] }] ∧
    (exampleLogger.Printf [exampleSite] "x=%v" [Value.int 1]).engine.calls = [] ∧
    (exampleLogger.Printf [exampleSite] "x=%v" [Value.int 1]).engine.printfCalls.map
        (PrintfCall.message exampleRuntime) = [some "x=1"] ∧
    (exampleLogger.Print [exampleSite] [Value.int 1]).engine.calls
      = [{ fn := EmitFn.Print, format := none,
           args := [Value.int 1, Value.str " (main.run:main.go:7)"] }] ∧
    (exampleLogger.Println [exampleSite] [Value.int 1]).engine.calls
      = [{ fn := EmitFn.Println, format := none,
           args := [Value.int 1, Value.str " (main.run:main.go:7)"] }] ∧
    (exampleLogger.Infof [exampleSite] "x=%v" [Value.int 1]).engine.calls
      = [{ fn := EmitFn.Infof, format := some "x=%v%v",
           args := [Value.int 1, Value.str " (main.run:main.go:7)"] }] := by
  refine ⟨by decide, by decide, by decide, by decide, by decide, by decide⟩

theorem Printf_eq (log : Logger) (stk : List Frame) (format : String) (args : List Value) :
    log.Printf stk format args =
      { log with engine := { log.engine with
          printfCalls := log.engine.printfCalls ++ [{ format := format, args := args }] } } :=
  rfl

theorem doPrintf_suffix (rt : Runtime) (s : String) :
    doPrintf rt .text ['%', 'v'] [Value.str s] = some s := by
  simp [doPrintf_cons, doPrintf, step, isFlag, Char.isDigit, printArg, isVerb, Value.plain,
    Value.accepts, Value.text, extraArgs]

theorem doPrintf_suffix_stack (rt : Runtime) (s t : String) :
    doPrintf rt .text ['%', 'v', '%', 'v'] [Value.str s, Value.str t] = some (s ++ t) := by
  simp [doPrintf_cons, doPrintf, step, isFlag, Char.isDigit, printArg, isVerb, Value.plain,
    Value.accepts, Value.text, extraArgs]

theorem Sprintf_suffix (rt : Runtime) (format : String) (args : List Value) (s t : String)
    (h : consumes .text format.toList args = true) :
    ∃ m, Sprintf rt format args = some m ∧
      Sprintf rt (format ++ "%v") (args ++ [Value.str s]) = some (m ++ s) ∧
      Sprintf rt (format ++ "%v" ++ "%v") (args ++ [Value.str s, Value.str t])
        = some (m ++ (s ++ t)) := by
  obtain ⟨m, hm, h1⟩ := doPrintf_append rt ['%', 'v'] [Value.str s] format.toList .text args h
  obtain ⟨m', hm', h2⟩ :=
    doPrintf_append rt ['%', 'v', '%', 'v'] [Value.str s, Value.str t] format.toList .text
      args h
  have e : m' = m := by
    rw [hm] at hm'
    exact (Option.some.inj hm').symm
  subst e
  refine ⟨m', hm, ?_, ?_⟩
  · have : (format ++ "%v").toList = format.toList ++ ['%', 'v'] := by simp
    unfold Sprintf
    rw [this, h1, doPrintf_suffix]
    rfl
  · have : (format ++ "%v" ++ "%v").toList = format.toList ++ ['%', 'v', '%', 'v'] := by simp
    unfold Sprintf
    rw [this, h2, doPrintf_suffix_stack]
    rfl

theorem sprintlnn_suffix (args : List Value) (s : String) :
    sprintlnn (args ++ [Value.str s])
      = sprintlnn args ++ ((if args.isEmpty then "" else " ") ++ s) := by
  unfold sprintlnn
  rw [List.map_append, List.map_singleton, intercalate_append_one]
  cases args with
  | nil => simp [Value.text, String.intercalate]
  | cons x a => simp [Value.text, String.append_assoc]

theorem sprintlnn_suffix_stack (args : List Value) (s t : String) :
    sprintlnn (args ++ [Value.str s, Value.str t])
      = sprintlnn args ++ ((if args.isEmpty then "" else " ") ++ s ++ (" " ++ t)) := by
  have e : args ++ [Value.str s, Value.str t] = (args ++ [Value.str s]) ++ [Value.str t] := by
    simp
  rw [e, sprintlnn_suffix (args ++ [Value.str s]) t, sprintlnn_suffix args s]
  simp [String.append_assoc]

/-- C5, amended: for every entry point, if for a formatted entry point the caller's format
consumes exactly the caller's arguments (`consumes`), the message the engine builds from
what the entry point hands it is the message it would build from the caller's own format
and arguments, followed by the trailer: the caller suffix and, at error tier, the newline
and stack text; the `ln` entry points put one space before the suffix when there are
arguments and one before the stack element. -/
theorem message_own_then_trailer (rt : Runtime) (log : Logger) (stk : List Frame)
    (ep : EmitFn) (format : String) (args : List Value)
    (h : ep.formatted = true → consumes .text format.toList args = true) :
    ∃ (own : String) (inner : List Frame), inner.length = 2 ∧
      (ownCall ep format args).message rt = some own ∧
      (log.invoke rt stk ep format args).engine.calls.getLast?.bind (EngineCall.message rt) =
        some (own ++ trailer ep args (callerSuffix stk) ("\n" ++ rt.Stack (inner ++ stk))) := by
  obtain ⟨inner, hlen, -, heq⟩ := invoke_eq rt log stk ep format args
  rw [heq]
  have hlast : ∀ (l : List EngineCall) (c : EngineCall), (l ++ [c]).getLast? = some c := by
    intro l c; simp
  simp only [LogrusLogger.record, hlast, Option.some_bind]
  by_cases hf : ep.formatted = true
  · obtain ⟨m, hm, h1, h2⟩ := Sprintf_suffix rt format args (callerSuffix stk)
      ("\n" ++ rt.Stack (inner ++ stk)) (h hf)
    refine ⟨m, inner, hlen, ?_, ?_⟩
    · simp [ownCall, EngineCall.message, hf, hm]
    · cases ep <;> simp [EmitFn.formatted] at hf <;>
        simp [EngineCall.message, EmitFn.formatted, EmitFn.errorTier, EmitFn.ln, trailer, h1, h2]
  · have hf' : ep.formatted = false := by simpa using hf
    by_cases hl : ep.ln = true
    · refine ⟨sprintlnn args, inner, hlen, ?_, ?_⟩
      · cases ep <;> simp [EmitFn.ln] at hl <;>
          simp [ownCall, EngineCall.message, EmitFn.formatted]
      · cases ep <;> simp [EmitFn.ln] at hl <;>
          simp [EngineCall.message, EmitFn.formatted, EmitFn.errorTier, EmitFn.ln, trailer,
            sprintlnn_suffix, sprintlnn_suffix_stack]
    · have hl' : ep.ln = false := by simpa using hl
      refine ⟨Sprint args, inner, hlen, ?_, ?_⟩
      · cases ep <;> simp [EmitFn.ln] at hl' <;> simp [EmitFn.formatted] at hf' <;>
          simp [ownCall, EngineCall.message, EmitFn.formatted]
      · cases ep <;> simp [EmitFn.ln] at hl' <;> simp [EmitFn.formatted] at hf' <;>
          simp [EngineCall.message, EmitFn.formatted, EmitFn.errorTier, EmitFn.ln, trailer,
            Sprint, doPrint_append_str, doPrint_append_str_str]

theorem message_own_then_trailer_witness :
    ∃ (own : String) (inner : List Frame), inner.length = 2 ∧
      (ownCall EmitFn.Errorf "x=%d" [Value.int 4]).message exampleRuntime = some own ∧
      (exampleLogger.invoke exampleRuntime [exampleSite] EmitFn.Errorf "x=%d"
          [Value.int 4]).engine.calls.getLast?.bind (EngineCall.message exampleRuntime) =
        some (own ++ trailer EmitFn.Errorf [Value.int 4] (callerSuffix [exampleSite])
          ("\n" ++ exampleRuntime.Stack (inner ++ [exampleSite]))) :=
  message_own_then_trailer exampleRuntime exampleLogger [exampleSite] EmitFn.Errorf "x=%d"
    [Value.int 4] (fun _ => by decide)

/-- C5, counterexample: `Debugf("loaded %v of %v", 3)` from the example call site.  The
engine is handed the format with `%v` appended and the suffix as second operand, so the
second verb of the caller's format prints the suffix and the appended verb is the one left
without operand; the caller's own format and arguments give
`loaded 3 of %!v(MISSING)`.  Likewise `Debugln("a")` gives `a`, a space, and the suffix,
which itself starts with a space. -/
theorem message_differs_on_operand_mismatch :
    (exampleLogger.Debugf [exampleSite] "loaded %v of %v"
        [Value.int 3]).engine.calls.getLast?.bind (EngineCall.message exampleRuntime)
      = some "loaded 3 of  (main.run:main.go:7)%!v(MISSING)" ∧
    (Sprintf exampleRuntime "loaded %v of %v" [Value.int 3]).map
        (fun m => m ++ callerSuffix [exampleSite])
      = some "loaded 3 of %!v(MISSING) (main.run:main.go:7)" ∧
    (exampleLogger.Debugf [exampleSite] "loaded %v of %v"
        [Value.int 3]).engine.calls.getLast?.bind (EngineCall.message exampleRuntime)
      ≠ (Sprintf exampleRuntime "loaded %v of %v" [Value.int 3]).map
          (fun m => m ++ callerSuffix [exampleSite]) ∧
    (exampleLogger.Debugln [exampleSite]
        [Value.str "a"]).engine.calls.getLast?.bind (EngineCall.message exampleRuntime)
      = some "a  (main.run:main.go:7)" ∧
    sprintlnn [Value.str "a"] ++ callerSuffix [exampleSite] = "a (main.run:main.go:7)" := by
  refine ⟨by decide, by decide, by decide, by decide, by decide⟩

/-! ## The caller suffix on the SQL path -/

theorem SqlDebug_suffix (rt : Runtime) (log : Logger) (stk : List Frame) (args : List Value)
    (h : stringsContains (sprintPlusV args) "/*no print*/" = false) :
    ∃ (line : Nat) (rest : List Value), (line = 281 ∨ line = 283) ∧
      (log.SqlDebug rt stk args).engine.calls.getLast?.map EngineCall.args
        = some (args ++ Value.str (frameSuffix (frameOf "(*Logger).SqlDebug" line)) :: rest) := by
  have hlast : ∀ (l : List EngineCall) (c : EngineCall), (l ++ [c]).getLast? = some c := by
    intro l c; simp
  by_cases he : stringsContains (sprintPlusV args) "Error" = true
  · refine ⟨281, [Value.str ("\n" ++ rt.Stack (frameOf "(*Logger).logErrorPrint" 166 ::
      frameOf "(*Logger).Error" 219 :: frameOf "(*Logger).SqlDebug" 281 :: stk))],
      Or.inl rfl, ?_⟩
    simp only [Logger.SqlDebug, h, he, Logger.Error, Logger.logErrorPrint, LogrusLogger.emit,
      LogrusLogger.record, hlast, getLineNumer_three, callerSuffix, Option.map_some',
      List.nil_append, List.append_assoc, List.singleton_append, Bool.false_eq_true, if_false,
      if_true]
  · refine ⟨283, [], Or.inr rfl, ?_⟩
    simp only [Logger.SqlDebug, h, he, Logger.Debug, Logger.logPrint, LogrusLogger.emit,
      LogrusLogger.record, hlast, getLineNumer_three, callerSuffix, Option.map_some',
      List.nil_append, Bool.false_eq_true, if_false]

/-- C6, the code at the failing input: `SqlDebug("select 1")` called from line 7 of
main.go hands the engine the suffix of its own frame, line 283 of logger.go, where the
suffix of the call site is ` (main.run:main.go:7)`, the one `Debug("select 1")` called
from the same place hands over. -/
theorem SqlDebug_suffix_is_own_frame :
    (exampleLogger.SqlDebug exampleRuntime [exampleSite] [Value.str "select 1"]).engine.calls
      = [{ fn := EmitFn.Debug, format := none,
           args := [Value.str "select 1",
                    Value.str " (logger.(*Logger).SqlDebug:logger.go:283)"] }] ∧
    (exampleLogger.Debug [exampleSite] [Value.str "select 1"]).engine.calls
      = [{ fn := EmitFn.Debug, format := none,
           args := [Value.str "select 1", Value.str " (main.run:main.go:7)"] }] ∧
    callerSuffix [exampleSite] = " (main.run:main.go:7)" := by
  refine ⟨by decide, by decide, by decide⟩

/-! ## Initialisation -/

theorem LogInit_existing (w : World) (a : Nat) (stk : List Frame) (h : w.Log = some a) :
    LogInit w stk = (w, some a) := by
  unfold LogInit
  rw [h]

theorem runLogInit_existing (a : Nat) (stks : List (List Frame)) :
    ∀ w : World, w.Log = some a →
      runLogInit w stks = (w, List.replicate stks.length (some a)) := by
  induction stks with
  | nil => intro w _; rfl
  | cons stk rest ih =>
    intro w h
    simp only [runLogInit, LogInit_existing w a stk h, ih w h, List.length_cons,
      List.replicate_succ]

theorem SetLogLevel_eq (log : Logger) (s : String) :
    log.SetLogLevel s = { log with engine := { log.engine with level := levelOf s } } := by
  unfold Logger.SetLogLevel LogrusLogger.SetLevel levelOf
  by_cases h1 : s = "INFO"
  · subst h1; simp
  · by_cases h2 : s = "WARN"
    · subst h2; simp
    · by_cases h3 : s = "ERROR"
      · subst h3; simp
      · by_cases h4 : s = "DEBUG"
        · subst h4; simp
        · simp [h1, h2, h3, h4]

theorem LogInit_suffix : frameSuffix (frameOf "LogInit" 64) = " (logger.LogInit:logger.go:64)" := by
  decide

theorem LogInit_fresh (w : World) (stk : List Frame) (h : w.Log = none) :
    LogInit w stk =
      match (readLogConfig w).2 with
      | .ok config =>
        ({ w with Log := some w.heap.length,
                  heap := w.heap ++ [builtLogger w.lookPath config],
                  configReads := w.configReads + 1 },
         some w.heap.length)
      | .error err =>
        ({ w with Log := some w.heap.length,
                  heap := w.heap ++ [builtLogger w.lookPath defaultConfig],
                  stdout := w.stdout ++ ["read log config failed, err = " ++ err ++ "\n",
                                         "will use default log config\n"],
                  configReads := w.configReads + 1 },
         some w.heap.length) := by
  unfold LogInit
  rw [h]
  rcases hs : w.statErr with _ | e
  · rcases hd : w.decoded with e | c
    · simp [readLogConfig, hs, hd, builtLogger, defaultConfig, SetLogLevel_eq, Logger.Info,
        Logger.logPrint, LogrusLogger.emit, LogrusLogger.record, LogrusLogger.AddHook,
        logrusNew, getLineNumer_three, callerSuffix, LogInit_suffix]
    · simp [readLogConfig, hs, hd, builtLogger, SetLogLevel_eq, Logger.Info,
        Logger.logPrint, LogrusLogger.emit, LogrusLogger.record, LogrusLogger.AddHook,
        logrusNew, getLineNumer_three, callerSuffix, LogInit_suffix]
  · simp [readLogConfig, hs, builtLogger, defaultConfig, SetLogLevel_eq, Logger.Info,
      Logger.logPrint, LogrusLogger.emit, LogrusLogger.record, LogrusLogger.AddHook,
      logrusNew, getLineNumer_three, callerSuffix, LogInit_suffix]

theorem LogInit_fresh_facts (w : World) (stk : List Frame) (h : w.Log = none) :
    (LogInit w stk).1.Log = some w.heap.length ∧
    (LogInit w stk).2 = some w.heap.length ∧
    (LogInit w stk).1.heap.length = w.heap.length + 1 ∧
    (LogInit w stk).1.configReads = w.configReads + 1 ∧
    (LogInit w stk).1.heap.get? w.heap.length =
      some (builtLogger w.lookPath
        (match (readLogConfig w).2 with
         | .ok config => config
         | .error _ => defaultConfig)) := by
  rw [LogInit_fresh w stk h]
  rcases (readLogConfig w).2 with e | c <;> simp

/-- C7: with every `LogInit` body run as one step, any sequence of one or more calls that
starts with no logger leaves the process in the state the first call alone leaves it in:
exactly one logger object has been allocated, the configuration has been read once, the
package variable points to that object and every call has returned that same pointer.  A
call made when the package variable already points to a logger returns that pointer and
changes nothing in the process state, so it reads no configuration, builds no engine or
hook and emits no record. -/
theorem LogInit_idempotent (w : World) (stk : List Frame) (rest : List (List Frame))
    (h : w.Log = none) :
    (runLogInit w (stk :: rest)).1 = (LogInit w stk).1 ∧
    (runLogInit w (stk :: rest)).1.heap.length = w.heap.length + 1 ∧
    (runLogInit w (stk :: rest)).1.configReads = w.configReads + 1 ∧
    (runLogInit w (stk :: rest)).1.Log = some w.heap.length ∧
    (runLogInit w (stk :: rest)).2 = List.replicate (rest.length + 1) (some w.heap.length) ∧
    (∀ (w' : World) (a : Nat) (s : List Frame), w'.Log = some a → LogInit w' s = (w', some a)) := by
  obtain ⟨hLog, hret, hheap, hreads, -⟩ := LogInit_fresh_facts w stk h
  have hrun : runLogInit w (stk :: rest) =
      ((LogInit w stk).1, (LogInit w stk).2 :: List.replicate rest.length (some w.heap.length)) := by
    simp only [runLogInit, runLogInit_existing w.heap.length rest (LogInit w stk).1 hLog]
  rw [hrun]
  refine ⟨rfl, hheap, hreads, hLog, ?_, fun w' a s h' => LogInit_existing w' a s h'⟩
  simp [hret, List.replicate_succ]

theorem LogInit_idempotent_witness :
    (runLogInit exampleWorld [[exampleSite], [], [exampleSite]]).1.heap.length = 1 ∧
    (runLogInit exampleWorld [[exampleSite], [], [exampleSite]]).2 = [some 0, some 0, some 0] :=
  have h := LogInit_idempotent exampleWorld [exampleSite] [[], [exampleSite]] rfl
  ⟨h.2.1, h.2.2.2.2.1⟩

/-- C8: a first `LogInit` returns a pointer to the logger it built, with no error result.
When reading the configuration fails, because `os.Stat` fails on the fixed path or because
the file does not decode, the logger has one hook, with MaxSize 1024, MaxBackups 10 and
MaxAge 7, and the debug level; when reading succeeds the hook carries the three loaded
numbers and the level is the one `SetLogLevel` selects for the loaded level name. -/
theorem LogInit_config_fallback (w : World) (stk : List Frame) (h : w.Log = none) :
    ∃ log : Logger,
      (LogInit w stk).2 = some w.heap.length ∧
      (LogInit w stk).1.heap.get? w.heap.length = some log ∧
      ((w.statErr ≠ none ∨ ∃ e, w.decoded = Except.error e) →
        log.engine.hooks.map (fun k => (k.config.MaxSize, k.config.MaxBackups, k.config.MaxAge))
          = [(1024, 10, 7)] ∧
        log.engine.level = Level.DebugLevel) ∧
      (∀ c : TLogConfig, w.statErr = none → w.decoded = Except.ok c →
        log.engine.hooks.map (fun k => (k.config.MaxSize, k.config.MaxBackups, k.config.MaxAge))
          = [(c.MaxSize, c.MaxBackups, c.MaxAge)] ∧
        log.engine.level =
          (if c.Level = "DEBUG" then Level.DebugLevel
           else if c.Level = "WARN" then Level.WarnLevel
           else if c.Level = "ERROR" then Level.ErrorLevel
           else Level.InfoLevel)) := by
  obtain ⟨-, hret, -, -, hget⟩ := LogInit_fresh_facts w stk h
  refine ⟨_, hret, hget, ?_, ?_⟩
  · intro hfail
    have hr : ∃ e, (readLogConfig w).2 = Except.error e := by
      unfold readLogConfig
      rcases hs : w.statErr with _ | e
      · rcases hfail with hne | ⟨e, he⟩
        · exact absurd hs hne
        · exact ⟨e, by simp [he]⟩
      · exact ⟨e, by simp⟩
    obtain ⟨e, he⟩ := hr
    rw [he]
    exact ⟨rfl, rfl⟩
  · intro c hs hd
    have hr : (readLogConfig w).2 = Except.ok c := by
      simp [readLogConfig, hs, hd]
    rw [hr]
    exact ⟨rfl, rfl⟩

theorem LogInit_config_fallback_witness :
    (∃ log : Logger,
      (LogInit exampleWorld [exampleSite]).2 = some 0 ∧
      (LogInit exampleWorld [exampleSite]).1.heap.get? 0 = some log ∧
      log.engine.hooks.map (fun k => (k.config.MaxSize, k.config.MaxBackups, k.config.MaxAge))
        = [(1024, 10, 7)] ∧
      log.engine.level = Level.DebugLevel) ∧
    (∃ log : Logger,
      (LogInit exampleWorldLoaded [exampleSite]).1.heap.get? 0 = some log ∧
      log.engine.hooks.map (fun k => (k.config.MaxSize, k.config.MaxBackups, k.config.MaxAge))
        = [(5, 2, 1)] ∧
      log.engine.level = Level.WarnLevel) :=
  ⟨match LogInit_config_fallback exampleWorld [exampleSite] rfl with
   | ⟨log, hret, hget, hfail, _⟩ => ⟨log, hret, hget, hfail (Or.inl (by decide))⟩,
   match LogInit_config_fallback exampleWorldLoaded [exampleSite] rfl with
   | ⟨log, _, hget, _, hok⟩ =>
     ⟨log, hget, hok { MaxSize := 5, MaxBackups := 2, MaxAge := 1, Level := "WARN" } rfl rfl⟩⟩

/-! ## Field enrichment -/

theorem WithFields_made (log : Logger) (stk : List Frame) (m : MapData) :
    log.WithFields stk (Fields.made m) =
      Except.ok (Fields.made (m.set "~LineNum" (Value.str (callerSuffix stk))),
        { Data := fun k =>
            ((m.set "~LineNum" (Value.str (callerSuffix stk))) k).filter
              (fun v => !v.isFunc) }) := by
  simp [Logger.WithFields, getLineNumer_two, LogrusLogger.WithFields, Fields.lookup]

theorem WithField_data (log : Logger) (stk : List Frame) (key : String) (value : Value)
    (k : String) :
    (log.WithField stk key value).Data k =
      if k = "~LineNum" then some (Value.str (callerSuffix stk))
      else if k = key then (if value.isFunc then none else some value) else none := by
  by_cases h1 : k = "~LineNum"
  · simp [Logger.WithField, getLineNumer_two, LogrusLogger.WithFields, Fields.lookup,
      Fields.literal, MapData.set, MapData.empty, h1, Option.filter, Value.isFunc]
  · by_cases h2 : k = key
    · subst h2
      cases hv : value.isFunc <;>
        simp [Logger.WithField, getLineNumer_two, LogrusLogger.WithFields, Fields.lookup,
          Fields.literal, MapData.set, MapData.empty, h1, Option.filter, hv]
    · simp [Logger.WithField, getLineNumer_two, LogrusLogger.WithFields, Fields.lookup,
        Fields.literal, MapData.set, MapData.empty, h1, h2, Option.filter]

/-- C9, amended: for every key other than "~LineNum" and every value that is not a function
or a pointer to a function, the field set of the context `WithField(key, value)` returns
binds the key to the value, "~LineNum" to the caller suffix, and nothing else; when the
value is a function or a pointer to a function the key is not bound, and with the key
"~LineNum" itself it is bound to the caller suffix.  For every map object `m`,
`WithFields(m)` returns a context whose field set binds "~LineNum" to the caller suffix
and, on every other key, carries the entry of `m` unless its value is a function or a
pointer to a function, so it carries every supplied entry with another key and a value
that is not one, and no other entry. -/
theorem WithField_carries_fields (log : Logger) (stk : List Frame) (key : String)
    (value : Value) (m : MapData) (hkey : key ≠ "~LineNum") :
    (value.isFunc = false → (log.WithField stk key value).Data key = some value) ∧
    (value.isFunc = true → (log.WithField stk key value).Data key = none) ∧
    (log.WithField stk key value).Data "~LineNum" = some (Value.str (callerSuffix stk)) ∧
    (log.WithField stk "~LineNum" value).Data "~LineNum"
      = some (Value.str (callerSuffix stk)) ∧
    (∀ k : String, k ≠ key → k ≠ "~LineNum" → (log.WithField stk key value).Data k = none) ∧
    ∃ (after : Fields) (e : Entry),
      log.WithFields stk (Fields.made m) = Except.ok (after, e) ∧
      e.Data "~LineNum" = some (Value.str (callerSuffix stk)) ∧
      (∀ k : String, k ≠ "~LineNum" → e.Data k = (m k).filter (fun v => !v.isFunc)) ∧
      (∀ (k : String) (v : Value), k ≠ "~LineNum" → m k = some v → v.isFunc = false →
        e.Data k = some v) := by
  refine ⟨?_, ?_, ?_, ?_, ?_, _, _, WithFields_made log stk m, ?_, ?_, ?_⟩
  · intro hval; rw [WithField_data]; simp [hkey, hval]
  · intro hval; rw [WithField_data]; simp [hkey, hval]
  · rw [WithField_data]; simp
  · rw [WithField_data]; simp
  · intro k h1 h2; rw [WithField_data]; simp [h1, h2]
  · simp [MapData.set, Option.filter, Value.isFunc]
  · intro k hk; simp [MapData.set, hk]
  · intro k v hk hm hv; simp [MapData.set, hk, hm, Option.filter, hv]

theorem WithField_carries_fields_witness :
    (exampleLogger.WithField [exampleSite] "user" (Value.int 42)).Data "user"
      = some (Value.int 42) ∧
    (exampleLogger.WithField [exampleSite] "user" (Value.int 42)).Data "~LineNum"
      = some (Value.str (callerSuffix [exampleSite])) :=
  have h := WithField_carries_fields exampleLogger [exampleSite] "user" (Value.int 42)
    MapData.empty (by decide)
  ⟨h.1 (by decide), h.2.2.1⟩

/-- C9, counterexample: with the key "~LineNum" the supplied value is not in the field set
of the context: `WithField("~LineNum", "x")` binds "~LineNum" to the caller suffix, and
`WithFields` of a map that binds "~LineNum" to "x" does the same.  With a function as value
the supplied field is not in the field set either: the context `WithField("cb", f)` returns
for a function `f` has no field "cb". -/
theorem WithField_reserved_key_wins :
    (exampleLogger.WithField [exampleSite] "~LineNum" (Value.str "x")).Data "~LineNum"
      = some (Value.str " (main.run:main.go:7)") ∧
    (exampleLogger.WithField [exampleSite] "~LineNum" (Value.str "x")).Data "~LineNum"
      ≠ some (Value.str "x") ∧
    (exampleLogger.WithFields [exampleSite]
        (Fields.made (MapData.empty.set "~LineNum" (Value.str "x")))).toOption.bind
          (fun r => r.2.Data "~LineNum")
      = some (Value.str " (main.run:main.go:7)") ∧
    (exampleLogger.WithField [exampleSite] "cb" (Value.func "func()" "0x47b0e0")).Data "cb"
      = none ∧
    (exampleLogger.WithFields [exampleSite]
        (Fields.made (MapData.empty.set "cb" (Value.func "func()" "0x47b0e0")))).toOption.bind
          (fun r => r.2.Data "cb")
      = none := by
  refine ⟨by decide, by decide, by decide, by decide, by decide⟩

/-- C10, amended: for every map object `m` passed to `WithFields`, the call returns, and
afterwards the caller's map binds "~LineNum" to the caller suffix, whether or not it bound
that key before, and binds every other key as before.  (`WithField` receives a key and a
value and no map; the map it hands the engine is built inside the call.) -/
theorem WithFields_writes_argument (log : Logger) (stk : List Frame) (m : MapData) :
    ∃ (after : MapData) (e : Entry),
      log.WithFields stk (Fields.made m) = Except.ok (Fields.made after, e) ∧
      ∀ k : String,
        after k = if k = "~LineNum" then some (Value.str (callerSuffix stk)) else m k := by
  refine ⟨_, _, WithFields_made log stk m, ?_⟩
  intro k
  simp [MapData.set]

/-- C10, counterexample: the nil map is a value of the map type, and `WithFields` of the
nil map stops at the assignment with a run-time panic; no state after the call exists in
which the caller's map binds "~LineNum". -/
theorem WithFields_nil_map_panics :
    exampleLogger.WithFields [exampleSite] Fields.nil
      = Except.error "assignment to entry in nil map" ∧
    (exampleLogger.WithFields [exampleSite] Fields.nil).toOption.isNone = true := by
  refine ⟨rfl, rfl⟩

end logger
